import Mathlib

/-!
Verification of the messagepack-rpc library (Deno/TypeScript) against its
specification.  The TypeScript sources under `src/` are shallowly embedded:
JavaScript runtime values become the inductive type `JSVal`, fallible code
returns `Except JSVal`, and the Session's message pipeline becomes explicit
state passing.  Definitions follow the source files `error.ts`,
`message.ts`, `dispatcher.ts`, `client.ts` and `session.ts`.
-/

namespace MsgpackRpc

/--
A JavaScript runtime value, covering everything the library's data paths
touch: MessagePack-decodable data (null, booleans, numbers, strings, arrays,
plain objects) plus `undefined` and `Error` instances.  Numbers are carried
as `Int` (fractional values play no role in any code path modelled here).
An `Error` instance carries its `name`, `message` and `stack` properties as
values (`vUndefined` standing for an absent `stack`).
-/
inductive JSVal where
  | vNull
  | vUndefined
  | vBool (b : Bool)
  | vNum (n : Int)
  | vStr (s : String)
  | vArr (elems : List JSVal)
  | vObj (fields : List (String × JSVal))
  | vErr (name message stack : JSVal)
deriving Repr

open JSVal

/-- JavaScript array indexing / destructuring: out-of-range access yields
`undefined`. -/
def jsIndex (elems : List JSVal) (i : Nat) : JSVal :=
  elems.getD i vUndefined

/-- JavaScript truthiness of a value (`if (x)`). -/
def truthy : JSVal → Bool
  | vNull => false
  | vUndefined => false
  | vBool b => b
  | vNum n => decide (n ≠ 0)
  | vStr s => decide (s ≠ "")
  | vArr _ => true
  | vObj _ => true
  | vErr _ _ _ => true

/-- `typeof x === "number"` (unknownutil's `is.Number`). -/
def isJsNumber : JSVal → Bool
  | vNum _ => true
  | _ => false

/-- `typeof x === "string"` (unknownutil's `is.String`). -/
def isJsString : JSVal → Bool
  | vStr _ => true
  | _ => false

/-- `Array.isArray(x)` (unknownutil's `is.Array`). -/
def isJsArray : JSVal → Bool
  | vArr _ => true
  | _ => false

/-- Whether a value is an `Error` instance (`x instanceof Error`). -/
def isJsError : JSVal → Bool
  | vErr _ _ _ => true
  | _ => false

/-- Coerce a value known to be a string (the method slot of a validated
message) to its `String`; other values never reach the coercion. -/
def asString : JSVal → String
  | vStr s => s
  | _ => ""

/-- Coerce a value known to be a number (the msgid slot of a validated
message) to its `Int`; other values never reach the coercion. -/
def asInt : JSVal → Int
  | vNum n => n
  | _ => 0

/-- Coerce a value known to be an array (the params slot of a validated
message) to its element list; other values never reach the coercion. -/
def asArr : JSVal → List JSVal
  | vArr xs => xs
  | _ => []

/-- `Array.prototype.join` renders a `null` or `undefined` element as the
empty string; every other element renders as its `String(...)` conversion
(passed in as the second argument). -/
def joinPart (v : JSVal) (s : String) : String :=
  match v with
  | vNull => ""
  | vUndefined => ""
  | _ => s

/-- JavaScript string conversion as in a template literal.  Arrays render
via `Array.prototype.toString` (elements joined by commas, `null` and
`undefined` elements as empty strings), plain objects as
`[object Object]`, `Error` instances via `Error.prototype.toString`. -/
def jsToString : JSVal → String
  | vNull => "null"
  | vUndefined => "undefined"
  | vBool b => if b then "true" else "false"
  | vNum n => toString n
  | vStr s => s
  | vArr xs =>
      String.intercalate "," (xs.attach.map (fun x => joinPart x.1 (jsToString x.1)))
  | vObj _ => "[object Object]"
  | vErr n m _ =>
      let ms := jsToString m
      if ms = "" then jsToString n else jsToString n ++ ": " ++ ms
decreasing_by
  all_goals simp_wf
  · have h := List.sizeOf_lt_of_mem x.2
    omega
  all_goals omega

/-- The stack-trace string the engine attaches to a freshly constructed
`Error`; its contents are runtime dependent and never inspected by the
library, so it is modelled as a fixed string. -/
def defaultStack : JSVal := vStr "<stack>"

/-- `new Error(message)`: name `"Error"`, the given message, and an
engine-generated stack. -/
def jsNewError (message : String) : JSVal :=
  vErr (vStr "Error") (vStr message) defaultStack

/-! ## `error.ts` -/

/--
`serialize(err)` from `error.ts`: an `Error` instance becomes the plain
object `{ name: err.name, message: err.message, stack: err.stack }`
(the `stack` field is present even when its value is `undefined`); any
other value becomes `{ name: "Error", message: String(err) }`.
-/
def serialize : JSVal → JSVal
  | vErr n m st => vObj [("name", n), ("message", m), ("stack", st)]
  | v => vObj [("name", vStr "Error"), ("message", vStr (jsToString v))]

/--
`isErrorRecord(err)` from `error.ts`: `err` is a non-null object with
`"name" in err` and `"message" in err`.  A plain object satisfies it when
its fields contain both keys; an `Error` instance always does (its
prototype chain provides `name` and `message`); an array never does;
primitives and `null` fail the `typeof` check.
-/
def isErrorRecord : JSVal → Bool
  | vObj fields => (fields.lookup "name").isSome && (fields.lookup "message").isSome
  | vErr _ _ _ => true
  | _ => false

/-- The own enumerable properties `Object.assign` copies from a source
value.  Plain objects expose their fields; on an `Error` instance the
`message` and `stack` properties are non-enumerable in V8, so nothing is
copied from it. -/
def ownEnumerableFields : JSVal → List (String × JSVal)
  | vObj fields => fields
  | _ => []

/-- One step of `Object.assign` onto an `Error` target: assigning the
`name`, `message` or `stack` property updates the error; the model does
not track other properties. -/
def assignErrField (acc : JSVal × JSVal × JSVal) (kv : String × JSVal) :
    JSVal × JSVal × JSVal :=
  match kv.1 with
  | "name" => (kv.2, acc.2.1, acc.2.2)
  | "message" => (acc.1, kv.2, acc.2.2)
  | "stack" => (acc.1, acc.2.1, kv.2)
  | _ => acc

/-- `Object.assign(new Error(), src)`: start from a fresh `Error`
(name `"Error"`, empty message, engine stack) and copy each own enumerable
property of `src` in order. -/
def assignOntoNewError (src : JSVal) : JSVal :=
  let acc := (ownEnumerableFields src).foldl assignErrField
    (vStr "Error", vStr "", defaultStack)
  vErr acc.1 acc.2.1 acc.2.2

/--
`deserialize(err)` from `error.ts`: an `ErrorRecord` is turned back into an
`Error` via `Object.assign(new Error(), err)`; any other value becomes
`Object.assign(new Error(String(err)), { stack: undefined })`.
-/
def deserialize (err : JSVal) : JSVal :=
  if isErrorRecord err then
    assignOntoNewError err
  else
    vErr (vStr "Error") (vStr (jsToString err)) vUndefined

/-! ## `message.ts` -/

/-- `buildRequestMessage(msgid, method, params)` = `[0, msgid, method, params]`. -/
def buildRequestMessage (msgid : Int) (method : String) (params : List JSVal) : JSVal :=
  vArr [vNum 0, vNum msgid, vStr method, vArr params]

/-- `buildResponseMessage(msgid, error, result)` = `[1, msgid, error, result]`. -/
def buildResponseMessage (msgid : Int) (error result : JSVal) : JSVal :=
  vArr [vNum 1, vNum msgid, error, result]

/-- `buildNotificationMessage(method, params)` = `[2, method, params]`. -/
def buildNotificationMessage (method : String) (params : List JSVal) : JSVal :=
  vArr [vNum 2, vStr method, vArr params]

/--
`isMessage(message)` from `message.ts`: the value must be an array; the
code then switches on `message[0]` and checks, via array destructuring
(out-of-range slots read as `undefined`):
 * case `0`: `is.Number(msgid) && is.String(method) && is.Array(params)`;
 * case `1`: `is.Number(msgid)`;
 * case `2`: `is.String(method) && is.Array(params)`;
any other first element yields `false`.
-/
def isMessage (message : JSVal) : Bool :=
  match message with
  | vArr elems =>
    match jsIndex elems 0 with
    | vNum t =>
        if t = 0 then
          isJsNumber (jsIndex elems 1) && isJsString (jsIndex elems 2) &&
            isJsArray (jsIndex elems 3)
        else if t = 1 then
          isJsNumber (jsIndex elems 1)
        else if t = 2 then
          isJsString (jsIndex elems 1) && isJsArray (jsIndex elems 2)
        else false
    | _ => false
  | _ => false

/-! ## `dispatcher.ts` -/

/-- A method handler: it receives the params and either returns a value or
fails with a thrown value (`(...args: unknown[]) => unknown`, awaited). -/
def Handler : Type := List JSVal → Except JSVal JSVal

/-- `Dispatcher`: a map of method names to handlers.  Object keys are
unique, modelled as an association list looked up by name. -/
def Dispatcher : Type := List (String × Handler)

/-- `Object.prototype.hasOwnProperty.call(dispatcher, method)`. -/
def hasOwnMethod (d : Dispatcher) (method : String) : Bool :=
  (d.lookup method).isSome

/-- The `TypeError` the engine throws for `dispatcher[method](...)` when no
such entry exists (calling `undefined`); its message text is
engine-generated. -/
def missingMethodTypeError : JSVal :=
  vErr (vStr "TypeError") (vStr "dispatcher[method] is not a function") defaultStack

/-- `err instanceof TypeError`. -/
def isTypeError : JSVal → Bool
  | vErr (vStr n) _ _ => n = "TypeError"
  | _ => false

/-- `new NoMethodFoundError(method)`: an `Error` subclass whose `name` is
the constructor name and whose message interpolates the method name. -/
def noMethodFoundError (method : String) : JSVal :=
  vErr (vStr "NoMethodFoundError")
    (vStr ("No MessagePack-RPC method \x27" ++ method ++ "\x27 exists"))
    defaultStack

/-- The function-valued own properties of `Object.prototype`, inherited by
every dispatcher object literal: `dispatcher[method]` finds these through
the prototype chain when no own entry shadows them.  (`__proto__` is an
accessor whose value is a non-callable object, so invoking it throws a
`TypeError` just like a missing entry.) -/
def objectPrototypeMethodNames : List String :=
  ["constructor", "hasOwnProperty", "isPrototypeOf", "propertyIsEnumerable",
   "toLocaleString", "toString", "valueOf", "__defineGetter__",
   "__defineSetter__", "__lookupGetter__", "__lookupSetter__"]

/-- The dispatcher object seen as a value (`Object.prototype.valueOf`
returns `this`): its own keys are the method names; the function values
themselves lie outside `JSVal` and stand as `undefined` placeholders.  No
theorem relies on this rendering. -/
def dispatcherAsValue (d : Dispatcher) : JSVal :=
  vObj (d.map (fun kv => (kv.1, vUndefined)))

/-- `Object(arg)` (the inherited `constructor`): objects pass through,
`undefined`/`null` give a fresh empty object, and primitives give wrapper
objects, modelled as empty objects.  No theorem relies on the result. -/
def toObject : JSVal → JSVal
  | vObj f => vObj f
  | vArr xs => vArr xs
  | vErr n m st => vErr n m st
  | _ => vObj []

/-- Invoking a method inherited from `Object.prototype` with
`this = dispatcher`: `toString` on a plain object yields
`[object Object]`; `toLocaleString` delegates to `this.toString()`
(preferring an own `toString` entry); `hasOwnProperty` and
`propertyIsEnumerable` test the dispatcher's own (always enumerable,
literal-keyed) entries under the string conversion of the first argument;
`isPrototypeOf` is false for every representable argument; the accessor
definers require a callable argument, which no `JSVal` is, and throw a
`TypeError`; the accessor lookups find none on literal-keyed data
properties. -/
def objectProtoInvoke (d : Dispatcher) (method : String) (params : List JSVal) :
    Except JSVal JSVal :=
  match method with
  | "toString" => .ok (vStr "[object Object]")
  | "toLocaleString" =>
      match d.lookup "toString" with
      | some h => h []
      | none => .ok (vStr "[object Object]")
  | "hasOwnProperty" =>
      .ok (vBool (hasOwnMethod d (jsToString (jsIndex params 0))))
  | "propertyIsEnumerable" =>
      .ok (vBool (hasOwnMethod d (jsToString (jsIndex params 0))))
  | "isPrototypeOf" => .ok (vBool false)
  | "valueOf" => .ok (dispatcherAsValue d)
  | "constructor" => .ok (toObject (jsIndex params 0))
  | "__defineGetter__" =>
      .error (vErr (vStr "TypeError") (vStr "Getter must be a function")
        defaultStack)
  | "__defineSetter__" =>
      .error (vErr (vStr "TypeError") (vStr "Setter must be a function")
        defaultStack)
  | "__lookupGetter__" => .ok vUndefined
  | "__lookupSetter__" => .ok vUndefined
  | _ => .error missingMethodTypeError

/-- The `try` body of `dispatch`: `await dispatcher[method](...params)`.
Property lookup walks the prototype chain: an own entry is called first;
failing that, a callable inherited from `Object.prototype` is invoked;
otherwise `dispatcher[method]` is `undefined` (or the non-callable
`__proto__` object) and calling it throws a `TypeError`. -/
def callDispatcherEntry (d : Dispatcher) (method : String) (params : List JSVal) :
    Except JSVal JSVal :=
  match d.lookup method with
  | some h => h params
  | none =>
      if method ∈ objectPrototypeMethodNames then
        objectProtoInvoke d method params
      else
        .error missingMethodTypeError

/--
`dispatch(dispatcher, method, params)` from `dispatcher.ts`: run the entry;
on a thrown value, if it is a `TypeError` and the dispatcher has no own
property `method`, throw `NoMethodFoundError(method)` instead; otherwise
rethrow the original value unchanged.
-/
def dispatch (d : Dispatcher) (method : String) (params : List JSVal) :
    Except JSVal JSVal :=
  match callDispatcherEntry d method params with
  | .ok v => .ok v
  | .error err =>
      if isTypeError err && !(hasOwnMethod d method) then
        .error (noMethodFoundError method)
      else
        .error err

/-! ## `client.ts` -/

/--
`Client.#recv(msgid)` from `client.ts`, applied to the response message the
session delivered for that msgid: destructure
`[_, __, error, result] = response`; `if (error) throw deserialize(error)`;
otherwise return `result`.
-/
def clientRecv (response : JSVal) : Except JSVal JSVal :=
  let error := jsIndex (asArr response) 2
  let result := jsIndex (asArr response) 3
  if truthy error then .error (deserialize error) else .ok result

/-! ## `session.ts` -/

/-- The `name` property of an `Error` value. -/
def errName : JSVal → JSVal
  | vErr n _ _ => n
  | _ => vUndefined

/-- The `message` property of an `Error` value. -/
def errMessage : JSVal → JSVal
  | vErr _ m _ => m
  | _ => vUndefined

/-- The error thrown by Session operations used outside the Running state. -/
def notRunningError : JSVal := jsNewError "Session is not running"

/-- The error thrown by `Session.start` while already Running. -/
def alreadyRunningError : JSVal := jsNewError "Session is already running"

/-- The error `Reservator.reserve` throws when the msgid is already
reserved; its message text comes from the external reservator library and
is never inspected by `session.ts`. -/
def reservatorReserveError : JSVal :=
  vErr (vStr "Error") (vStr "<key already reserved>") defaultStack

/-- The error `Reservator.resolve` throws when no reservation exists for
the msgid; its message text comes from the external reservator library and
is never inspected by `session.ts`. -/
def reservatorResolveError : JSVal :=
  vErr (vStr "Error") (vStr "<no reservation found for the key>") defaultStack

/-- The `SessionOptions` hooks together with the dispatcher the Session
consults.  Each hook is user-supplied code that may itself fail with a
thrown value. -/
structure Config where
  dispatcher : Dispatcher
  onInvalidMessage : Option (JSVal → Except JSVal Unit)
  onRequestMessageError : Option (JSVal → JSVal → Except JSVal Unit)
  onResponseMessageError : Option (JSVal → JSVal → Except JSVal Unit)
  onNotificationMessageError : Option (JSVal → JSVal → Except JSVal Unit)

/-- The parts of the Running state a single `#handleMessage` call observes:
the msgids with a pending `reservator.reserve`, and whether `#running` is
still set when the detached request task reaches its `send` call (the
session may have terminated while the dispatch was in flight). -/
structure RunState where
  reservations : List Int
  runningAtSend : Bool

/-- A record of one hook invocation. -/
inductive HookEvent where
  | invalidMessage (message : JSVal)
  | requestMessageError (message error : JSVal)
  | responseMessageError (message error : JSVal)
  | notificationMessageError (message error : JSVal)
deriving Repr

/-- Everything observable about one `#handleMessage` call: the response
messages written to the outbound (inner) channel, the reservator
resolutions, the hooks invoked, a value thrown synchronously out of
`#handleMessage` into the consumer pipeline, and a rejection of a detached
task promise (which never reaches the pipeline). -/
structure TaskResult where
  outbound : List JSVal
  resolved : List (Int × JSVal)
  hookEvents : List HookEvent
  raised : Option JSVal
  detachedRejection : Option JSVal

/-- `this.#hook?.call(this, message)`: absent hooks do nothing; a present
hook is invoked and may fail. -/
def runHook1 (hook : Option (JSVal → Except JSVal Unit)) (message : JSVal)
    (ev : HookEvent) : List HookEvent × Option JSVal :=
  match hook with
  | none => ([], none)
  | some h =>
      match h message with
      | .ok _ => ([ev], none)
      | .error e => ([ev], some e)

/-- `this.#hook?.call(this, message, error)` for the two-argument hooks. -/
def runHook2 (hook : Option (JSVal → JSVal → Except JSVal Unit))
    (message error : JSVal) (ev : HookEvent) : List HookEvent × Option JSVal :=
  match hook with
  | none => ([], none)
  | some h =>
      match h message error with
      | .ok _ => ([ev], none)
      | .error e => ([ev], some e)

/--
`Session.#dispatch(method, params)`: run `dispatch` on the session's
dispatcher; success yields `{ error: null, result }`, a thrown value is
caught and yields `{ error: serialize(err), result: null }`.  It never
throws.
-/
def sessionDispatch (d : Dispatcher) (method : String) (params : List JSVal) :
    JSVal × JSVal :=
  match dispatch d method params with
  | .ok result => (vNull, result)
  | .error err => (serialize err, vNull)

/--
`Session.#handleRequestMessage(message)`: a detached async task that
destructures `[_, msgid, method, params]`, awaits `#dispatch`, and sends
`buildResponseMessage(msgid, error, result)`.  If the session is still
running the response is enqueued; otherwise `send` throws
"Session is not running", the `catch` invokes `onRequestMessageError`, and
a failure of that hook only rejects the detached promise.
-/
def handleRequestMessage (cfg : Config) (rst : RunState) (message : JSVal) :
    TaskResult :=
  let elems := asArr message
  let msgid := asInt (jsIndex elems 1)
  let method := asString (jsIndex elems 2)
  let params := asArr (jsIndex elems 3)
  let dr := sessionDispatch cfg.dispatcher method params
  if rst.runningAtSend then
    { outbound := [buildResponseMessage msgid dr.1 dr.2], resolved := [],
      hookEvents := [], raised := none, detachedRejection := none }
  else
    let hr := runHook2 cfg.onRequestMessageError message notRunningError
      (.requestMessageError message notRunningError)
    { outbound := [], resolved := [], hookEvents := hr.1, raised := none,
      detachedRejection := hr.2 }

/--
`Session.#handleResponseMessage(message)`: a synchronous method that
destructures the msgid and calls `reservator.resolve(msgid, message)`.
With a pending reservation the response is delivered; otherwise `resolve`
throws, the `catch` invokes `onResponseMessageError`, and a failure of
that hook propagates synchronously out of the method (the hook call sits
inside the `catch` clause, outside the `try`).
-/
def handleResponseMessage (cfg : Config) (rst : RunState) (message : JSVal) :
    TaskResult :=
  let msgid := asInt (jsIndex (asArr message) 1)
  if rst.reservations.contains msgid then
    { outbound := [], resolved := [(msgid, message)], hookEvents := [],
      raised := none, detachedRejection := none }
  else
    let hr := runHook2 cfg.onResponseMessageError message reservatorResolveError
      (.responseMessageError message reservatorResolveError)
    { outbound := [], resolved := [], hookEvents := hr.1, raised := hr.2,
      detachedRejection := none }

/--
`Session.#handleNotificationMessage(message)`: a detached async task that
destructures `[_, method, params]` and awaits `this.#dispatch(method,
params)`, discarding the result.  `#dispatch` catches every handler
failure and returns it as a value, so the `try` body cannot throw and the
`catch` that would report via `onNotificationMessageError` is unreachable.
-/
def handleNotificationMessage (cfg : Config) (message : JSVal) : TaskResult :=
  let elems := asArr message
  let method := asString (jsIndex elems 1)
  let params := asArr (jsIndex elems 2)
  let _discarded := sessionDispatch cfg.dispatcher method params
  { outbound := [], resolved := [], hookEvents := [], raised := none,
    detachedRejection := none }

/--
`Session.#handleMessage(message)`, the `write` callback of the consumer
pipeline's sink: invalid values go to `onInvalidMessage` (called
synchronously, unprotected, so its failure propagates into the pipeline);
valid messages are switched on their first element.
-/
def handleMessage (cfg : Config) (rst : RunState) (message : JSVal) : TaskResult :=
  if isMessage message then
    match jsIndex (asArr message) 0 with
    | vNum t =>
        if t = 0 then handleRequestMessage cfg rst message
        else if t = 1 then handleResponseMessage cfg rst message
        else if t = 2 then handleNotificationMessage cfg message
        else
          { outbound := [], resolved := [], hookEvents := [], raised := none,
            detachedRejection := none }
    | _ =>
        { outbound := [], resolved := [], hookEvents := [], raised := none,
          detachedRejection := none }
  else
    let hr := runHook1 cfg.onInvalidMessage message (.invalidMessage message)
    { outbound := [], resolved := [], hookEvents := hr.1, raised := hr.2,
      detachedRejection := none }

/--
The consumer pipeline (`this.#outer.reader ... pipeTo(new WritableStream({
write: (m) => this.#handleMessage(m) }))`): decoded values are handled in
order; a value thrown out of `#handleMessage` rejects the `write` and
terminates the pipeline, leaving the remaining inbound values unprocessed.
Returns the results of the processed messages and the terminating value,
if any.
-/
def runConsumer (cfg : Config) (rst : RunState) (msgs : List JSVal) :
    List TaskResult × Option JSVal :=
  match msgs with
  | [] => ([], none)
  | m :: rest =>
    let r := handleMessage cfg rst m
    match r.raised with
    | some e => ([r], some e)
    | none =>
      let rec' := runConsumer cfg rst rest
      (r :: rec'.1, rec'.2)

/-- The mutable state behind a running session that the state-guarded
operations touch. -/
structure RunningSession where
  outbound : List JSVal
  reservations : List Int

/-- A `Session`'s lifecycle state: `#running` is set exactly while the
session is Running (set by `start`, cleared when the pipelines settle). -/
structure Session where
  running : Option RunningSession

/-- `Session.send(message)`: throws "Session is not running" outside the
Running state, otherwise writes the message to the inner channel feeding
the producer pipeline. -/
def Session.send (s : Session) (message : JSVal) : Except JSVal Session :=
  match s.running with
  | none => .error notRunningError
  | some r =>
      .ok { running := some { r with outbound := r.outbound ++ [message] } }

/-- `Session.recv(msgid)`: throws "Session is not running" outside the
Running state, otherwise reserves the msgid on the reservator, which
rejects an already-reserved msgid. -/
def Session.recv (s : Session) (msgid : Int) : Except JSVal Session :=
  match s.running with
  | none => .error notRunningError
  | some r =>
      if r.reservations.contains msgid then .error reservatorReserveError
      else
        .ok { running := some { r with reservations := r.reservations ++ [msgid] } }

/-- `Session.wait()`: throws "Session is not running" outside the Running
state, otherwise returns the waiter. -/
def Session.wait (s : Session) : Except JSVal Unit :=
  match s.running with
  | none => .error notRunningError
  | some _ => .ok ()

/-- `Session.shutdown()`: throws "Session is not running" outside the
Running state, otherwise aborts the consumer and resolves once the
pipelines settle (after which `#running` is cleared). -/
def Session.shutdown (s : Session) : Except JSVal Session :=
  match s.running with
  | none => .error notRunningError
  | some _ => .ok { running := none }

/-- `Session.forceShutdown()`: throws "Session is not running" outside the
Running state, otherwise aborts both pipelines and resolves once they
settle. -/
def Session.forceShutdown (s : Session) : Except JSVal Session :=
  match s.running with
  | none => .error notRunningError
  | some _ => .ok { running := none }

/-- `Session.start()`: throws "Session is already running" in the Running
state, otherwise installs a fresh running state. -/
def Session.start (s : Session) : Except JSVal Session :=
  match s.running with
  | some _ => .error alreadyRunningError
  | none => .ok { running := some { outbound := [], reservations := [] } }

/-! ## Spec-side message shapes -/

/--
The message shape as the specification words it: an array whose first
element is 0, 1 or 2 and whose remaining elements match the variant's
shape including its length and element types, i.e. exactly
`[0, number, string, array]`, `[1, number, any, any]` or
`[2, string, array]`.  Stated from the spec's words, to be compared with
`isMessage` from the source.
-/
def claimedMessageShape (v : JSVal) : Bool :=
  match v with
  | vArr [vNum 0, msgid, method, params] =>
      isJsNumber msgid && isJsString method && isJsArray params
  | vArr [vNum 1, msgid, _, _] => isJsNumber msgid
  | vArr [vNum 2, method, params] => isJsString method && isJsArray params
  | _ => false

/-- Whether the first element of the array `v` is the number `k`. -/
def firstElemIs (v : JSVal) (k : Int) : Bool :=
  match jsIndex (asArr v) 0 with
  | vNum t => t = k
  | _ => false

/-- Whether the element of the array `v` at position `i` satisfies `p`
(out-of-range slots read as `undefined`). -/
def slotSat (v : JSVal) (i : Nat) (p : JSVal → Bool) : Bool :=
  p (jsIndex (asArr v) i)

/--
The amended message shape: an array whose first element is 0, 1 or 2 and
whose named positional slots have the required simple types (variant 0:
slots 1–3 are number, string, array; variant 1: slot 1 is a number;
variant 2: slots 1–2 are string, array).  The array's length and the
response variant's error/result slots are not constrained.
-/
def amendedMessageShape (v : JSVal) : Bool :=
  isJsArray v &&
  ((firstElemIs v 0 && slotSat v 1 isJsNumber && slotSat v 2 isJsString &&
      slotSat v 3 isJsArray) ||
   (firstElemIs v 1 && slotSat v 1 isJsNumber) ||
   (firstElemIs v 2 && slotSat v 1 isJsString && slotSat v 2 isJsArray))

/-! ## Theorems -/

/--
C9: the message constructors produce values accepted by the validator:
for every msgid, method, params, error and result,
`isMessage (buildRequestMessage msgid method params)`,
`isMessage (buildResponseMessage msgid error result)` and
`isMessage (buildNotificationMessage method params)` all hold.
-/
theorem builders_satisfy_isMessage (msgid : Int) (method : String)
    (params : List JSVal) (error result : JSVal) :
    isMessage (buildRequestMessage msgid method params) = true ∧
    isMessage (buildResponseMessage msgid error result) = true ∧
    isMessage (buildNotificationMessage method params) = true := by
  refine ⟨rfl, rfl, rfl⟩

/--
C10: `serialize` is total on arbitrary input: for every value `x`, Error
or not, `serialize x` is a record with `name` and `message` fields, so
`isErrorRecord (serialize x)` always holds and `deserialize (serialize x)`
always takes the ErrorRecord branch, returning an Error instance.
-/
theorem serialize_total_roundtrip_error (x : JSVal) :
    isErrorRecord (serialize x) = true ∧
    deserialize (serialize x) = assignOntoNewError (serialize x) ∧
    isJsError (deserialize (serialize x)) = true := by
  cases x <;>
    simp [serialize, isErrorRecord, deserialize, assignOntoNewError,
      ownEnumerableFields, assignErrField, isJsError]

/--
C5 counterexample: `isMessage` accepts the two-element array `[1, 0]`,
which does not have the length-4 shape `[1, number, any, any]` the claim
requires, so "remaining elements match the corresponding variant's shape,
including its length" fails on the code.
-/
theorem isMessage_length_counterexample :
    isMessage (vArr [vNum 1, vNum 0]) = true ∧
    claimedMessageShape (vArr [vNum 1, vNum 0]) = false :=
  ⟨rfl, rfl⟩

/--
C5 amended: `isMessage x` is true if and only if `x` is an array whose
first element is 0, 1 or 2 and whose named positional slots have the
corresponding simple types (`[0, number, string, array]` in slots 0–3,
`[1, number]` in slots 0–1, `[2, string, array]` in slots 0–2); the
array's length and the response variant's error/result slots are not
checked.
-/
theorem isMessage_amended_characterization (v : JSVal) :
    isMessage v = amendedMessageShape v := by
  cases v <;>
    simp only [isMessage, amendedMessageShape, firstElemIs, slotSat,
      isJsArray, asArr, Bool.false_and, Bool.and_false]
  case vArr elems =>
    cases hv : jsIndex elems 0 <;>
      simp only [hv, Bool.false_and, Bool.or_self, Bool.and_false,
        Bool.false_or]
    case vNum t =>
      by_cases h0 : t = 0 <;> by_cases h1 : t = 1 <;> by_cases h2 : t = 2 <;>
        simp [h0, h1, h2]

/--
C3 counterexample: a Response whose error slot is the number `0` —
non-null, but falsy — makes the call return the result slot instead of
failing: `Client.#recv` tests `if (error)`, a truthiness check, not a
null check.
-/
theorem clientRecv_nonnull_falsy_counterexample :
    clientRecv (vArr [vNum 1, vNum 0, vNum 0, vStr "x"]) = .ok (vStr "x") ∧
    vNum 0 ≠ vNull :=
  ⟨rfl, nofun⟩

/--
C3 amended: for every Response message received for a `Client.call`, if
the Response's error slot is truthy the call fails with
`errorDeserializer(error)`; otherwise (a falsy error slot: `null`,
`undefined`, `false`, `0` or the empty string) the call returns the
Response's result slot.
-/
theorem clientRecv_truthy_characterization (msgid : Int) (error result : JSVal) :
    clientRecv (buildResponseMessage msgid error result) =
      if truthy error then .error (deserialize error) else .ok result := by
  simp [clientRecv, buildResponseMessage, asArr, jsIndex]

/--
C4 counterexample: the empty dispatcher has no own-property entry under
`"toString"`, yet `dispatch({}, "toString", [])` does not fail with the
no-method error: property lookup walks the prototype chain, finds the
inherited `Object.prototype.toString`, and the call succeeds with
`[object Object]`.
-/
theorem dispatch_inherited_method_counterexample :
    hasOwnMethod ([] : Dispatcher) "toString" = false ∧
    dispatch ([] : Dispatcher) "toString" [] = .ok (vStr "[object Object]") :=
  ⟨rfl, rfl⟩

/--
C4 amended: `dispatch(table, method, params)` fails with a
`NoMethodFoundError` whose message is
`No MessagePack-RPC method \x27<name>\x27 exists` when the table has no
own-property entry under `method` and `method` is not the name of a
callable inherited from `Object.prototype` (for such a name the inherited
built-in is invoked instead); and when an own-property handler exists and
itself fails, that failure propagates unchanged — it is never replaced by
the no-method error, even when it is a `TypeError`.
-/
theorem dispatch_missing_method_amended (d : Dispatcher)
    (method : String) (params : List JSVal) :
    (d.lookup method = none → method ∉ objectPrototypeMethodNames →
      dispatch d method params = .error (noMethodFoundError method) ∧
      errMessage (noMethodFoundError method) =
        vStr ("No MessagePack-RPC method \x27" ++ method ++ "\x27 exists")) ∧
    (∀ h e, d.lookup method = some h → h params = .error e →
      dispatch d method params = .error e) := by
  constructor
  · intro hnone hproto
    refine ⟨?_, rfl⟩
    simp [dispatch, callDispatcherEntry, hnone, hproto, isTypeError,
      missingMethodTypeError, hasOwnMethod]
  · intro h e hsome herr
    simp [dispatch, callDispatcherEntry, hsome, herr, hasOwnMethod]

/-- C4 amended witness: a method missing from both the table and
`Object.prototype` yields the no-method error, and a handler that throws
a `TypeError` has that very error propagated. -/
theorem dispatch_missing_method_amended_witness :
    dispatch ([] : Dispatcher) "sum" [] = .error (noMethodFoundError "sum") ∧
    dispatch [("boom", fun _ =>
        Except.error (vErr (vStr "TypeError") (vStr "bang") vUndefined))]
      "boom" [] =
      .error (vErr (vStr "TypeError") (vStr "bang") vUndefined) := by
  constructor
  · exact ((dispatch_missing_method_amended [] "sum" []).1 rfl (by decide)).1
  · exact (dispatch_missing_method_amended
      [("boom", fun _ =>
        Except.error (vErr (vStr "TypeError") (vStr "bang") vUndefined))]
      "boom" []).2 _ _ rfl rfl

/-- Helper: the serializer always yields a plain object, which is truthy. -/
theorem truthy_serialize (x : JSVal) : truthy (serialize x) = true := by
  cases x <;> rfl

/--
C1: for every inbound Request `[0, msgid, method, params]` handled by a
running Session, if `dispatch(method, params)` succeeds with `result` the
Session enqueues the Response `[1, msgid, null, result]` on the outbound
queue, and if it fails with `err` it enqueues
`[1, msgid, errorSerializer(err), null]`; the error serializer maps an
Error to a record with its name, message and stack.
-/
theorem request_message_response (cfg : Config) (rst : RunState) (msgid : Int)
    (method : String) (params : List JSVal)
    (hrun : rst.runningAtSend = true) :
    (∀ result, dispatch cfg.dispatcher method params = .ok result →
      (handleMessage cfg rst (buildRequestMessage msgid method params)).outbound =
        [buildResponseMessage msgid vNull result]) ∧
    (∀ err, dispatch cfg.dispatcher method params = .error err →
      (handleMessage cfg rst (buildRequestMessage msgid method params)).outbound =
        [buildResponseMessage msgid (serialize err) vNull]) ∧
    (∀ n m st, serialize (vErr n m st) =
      vObj [("name", n), ("message", m), ("stack", st)]) := by
  refine ⟨?_, ?_, fun n m st => rfl⟩
  · intro result hok
    simp [handleMessage, isMessage, buildRequestMessage, jsIndex, asArr,
      handleRequestMessage, sessionDispatch, hok, hrun, asInt, asString,
      isJsNumber, isJsString, isJsArray]
  · intro err herr
    simp [handleMessage, isMessage, buildRequestMessage, jsIndex, asArr,
      handleRequestMessage, sessionDispatch, herr, hrun, asInt, asString,
      isJsNumber, isJsString, isJsArray]

/-- C1 witness: a request for a succeeding handler produces the success
Response, and one for a throwing handler produces the error Response. -/
theorem request_message_response_witness :
    (handleMessage
        ⟨[("ok", fun _ => Except.ok (vNum 3))], none, none, none, none⟩
        ⟨[], true⟩ (buildRequestMessage 7 "ok" [])).outbound =
      [buildResponseMessage 7 vNull (vNum 3)] ∧
    (handleMessage
        ⟨[("bad", fun _ => Except.error (jsNewError "Failed"))], none, none,
          none, none⟩
        ⟨[], true⟩ (buildRequestMessage 8 "bad" [])).outbound =
      [buildResponseMessage 8 (serialize (jsNewError "Failed")) vNull] := by
  constructor
  · exact (request_message_response
      ⟨[("ok", fun _ => Except.ok (vNum 3))], none, none, none, none⟩
      ⟨[], true⟩ 7 "ok" [] rfl).1 _ rfl
  · exact (request_message_response
      ⟨[("bad", fun _ => Except.error (jsNewError "Failed"))], none, none,
        none, none⟩
      ⟨[], true⟩ 8 "bad" [] rfl).2.1 _ rfl

/--
C2: when the handler registered for `m` fails with `e`, the request/
response round trip makes `client.call(m, …p)` fail with
`errorDeserializer(errorSerializer(e))`; and with the implemented
serializer/deserializer pair, for every Error `e`,
`deserialize (serialize e)` is an Error whose name and message equal
those of `e`.
-/
theorem error_roundtrip (cfg : Config) (rst : RunState) (msgid : Int)
    (method : String) (params : List JSVal) (handler : Handler) (e : JSVal)
    (hrun : rst.runningAtSend = true)
    (hlook : cfg.dispatcher.lookup method = some handler)
    (hfail : handler params = .error e) :
    (handleMessage cfg rst (buildRequestMessage msgid method params)).outbound =
      [buildResponseMessage msgid (serialize e) vNull] ∧
    clientRecv (buildResponseMessage msgid (serialize e) vNull) =
      .error (deserialize (serialize e)) ∧
    (∀ n m st,
      errName (deserialize (serialize (vErr n m st))) = n ∧
      errMessage (deserialize (serialize (vErr n m st))) = m ∧
      isJsError (deserialize (serialize (vErr n m st))) = true) := by
  have hdisp : dispatch cfg.dispatcher method params = .error e := by
    simp [dispatch, callDispatcherEntry, hlook, hfail, hasOwnMethod]
  refine ⟨(request_message_response cfg rst msgid method params hrun).2.1 e hdisp,
    ?_, fun n m st => ⟨rfl, rfl, rfl⟩⟩
  simp [clientRecv, buildResponseMessage, asArr, jsIndex, truthy_serialize]

/-- C2 witness: a handler failing with `Error("Failed")` reaches the
client as the deserialized serialization of that error. -/
theorem error_roundtrip_witness :
    clientRecv (buildResponseMessage 9 (serialize (jsNewError "Failed")) vNull) =
      .error (deserialize (serialize (jsNewError "Failed"))) ∧
    errName (deserialize (serialize (jsNewError "Failed"))) = vStr "Error" ∧
    errMessage (deserialize (serialize (jsNewError "Failed"))) = vStr "Failed" := by
  have h := error_roundtrip
    ⟨[("bad", fun _ => Except.error (jsNewError "Failed"))], none, none, none,
      none⟩
    ⟨[], true⟩ 9 "bad" [] (fun _ => Except.error (jsNewError "Failed"))
    (jsNewError "Failed") rfl rfl rfl
  exact ⟨h.2.1, (h.2.2 (vStr "Error") (vStr "Failed") defaultStack).1,
    (h.2.2 (vStr "Error") (vStr "Failed") defaultStack).2.1⟩

/--
C8: every Session operation invoked outside the Running state (`send`,
`recv`, `wait`, `shutdown`, `forceShutdown` before `start` or after
termination, i.e. while `#running` is unset) fails with an error whose
message is exactly "Session is not running", and `start` while already
Running fails with an error whose message is exactly
"Session is already running".
-/
theorem session_state_guards (s : Session) (message : JSVal) (msgid : Int) :
    (s.running = none →
      s.send message = .error notRunningError ∧
      s.recv msgid = .error notRunningError ∧
      s.wait = .error notRunningError ∧
      s.shutdown = .error notRunningError ∧
      s.forceShutdown = .error notRunningError ∧
      errMessage notRunningError = vStr "Session is not running") ∧
    (∀ r, s.running = some r →
      s.start = .error alreadyRunningError ∧
      errMessage alreadyRunningError = vStr "Session is already running") := by
  constructor
  · intro hnone
    refine ⟨?_, ?_, ?_, ?_, ?_, rfl⟩ <;>
      simp [Session.send, Session.recv, Session.wait, Session.shutdown,
        Session.forceShutdown, hnone]
  · intro r hsome
    refine ⟨?_, rfl⟩
    simp [Session.start, hsome]

/-- C8 witness: a never-started session rejects every operation with
"Session is not running", and a started one rejects `start`. -/
theorem session_state_guards_witness :
    Session.send ⟨none⟩ vNull = .error notRunningError ∧
    Session.wait ⟨none⟩ = .error notRunningError ∧
    Session.start ⟨some ⟨[], []⟩⟩ = .error alreadyRunningError := by
  refine ⟨?_, ?_, ?_⟩
  · exact ((session_state_guards ⟨none⟩ vNull 0).1 rfl).1
  · exact ((session_state_guards ⟨none⟩ vNull 0).1 rfl).2.2.1
  · exact ((session_state_guards ⟨some ⟨[], []⟩⟩ vNull 0).2 ⟨[], []⟩ rfl).1

/-- Helper: the detached request task never throws into the consumer
pipeline; a hook failure there only rejects its own detached promise. -/
theorem handleRequestMessage_raised_none (cfg : Config) (rst : RunState)
    (message : JSVal) : (handleRequestMessage cfg rst message).raised = none := by
  unfold handleRequestMessage
  split <;> rfl

/-- Helper: the detached notification task never throws into the consumer
pipeline. -/
theorem handleNotificationMessage_raised_none (cfg : Config)
    (message : JSVal) : (handleNotificationMessage cfg message).raised = none :=
  rfl

/-- A configuration whose invalid-message hook itself fails. -/
def failingInvalidHookConfig : Config :=
  { dispatcher := [], onInvalidMessage := some (fun _ => .error (vStr "hookboom")),
    onRequestMessageError := none, onResponseMessageError := none,
    onNotificationMessageError := none }

/--
C7 counterexample: a failure raised by the user-supplied
`onInvalidMessage` hook is not swallowed: it propagates out of
`#handleMessage` and terminates the consumer pipeline — the message after
the invalid one is never processed.
-/
theorem hook_failure_terminates_counterexample :
    (handleMessage failingInvalidHookConfig ⟨[], true⟩ (vStr "oops")).raised =
      some (vStr "hookboom") ∧
    (runConsumer failingInvalidHookConfig ⟨[], true⟩
      [vStr "oops", buildNotificationMessage "m" []]).2 = some (vStr "hookboom") ∧
    (runConsumer failingInvalidHookConfig ⟨[], true⟩
      [vStr "oops", buildNotificationMessage "m" []]).1.length = 1 :=
  ⟨rfl, rfl, rfl⟩

/--
C7 amended: failures raised by the hooks that run inside the detached
request/notification tasks never propagate into the Session's pipelines,
but the `onInvalidMessage` and `onResponseMessageError` hooks run
synchronously inside the consumer's `write` callback: a failure they raise
propagates out of `#handleMessage` and terminates the consumer pipeline.
-/
theorem hook_failure_isolation_amended (cfg : Config) (rst : RunState)
    (msg : JSVal) :
    (isMessage msg = true →
      (firstElemIs msg 0 = true ∨ firstElemIs msg 2 = true) →
      (handleMessage cfg rst msg).raised = none) ∧
    (∀ h e, isMessage msg = false → cfg.onInvalidMessage = some h →
      h msg = .error e →
      (handleMessage cfg rst msg).raised = some e ∧
      (runConsumer cfg rst [msg]).2 = some e) ∧
    (∀ h e, isMessage msg = true → firstElemIs msg 1 = true →
      rst.reservations.contains (asInt (jsIndex (asArr msg) 1)) = false →
      cfg.onResponseMessageError = some h →
      h msg reservatorResolveError = .error e →
      (handleMessage cfg rst msg).raised = some e) := by
  refine ⟨?_, ?_, ?_⟩
  · intro hmsg htag
    unfold handleMessage
    cases hv : jsIndex (asArr msg) 0 <;> simp [firstElemIs, hv] at htag
    case vNum t =>
      simp [hmsg, hv]
      rcases htag with h0 | h2
      · subst h0
        simp [handleRequestMessage_raised_none]
      · subst h2
        simp [handleNotificationMessage_raised_none]
  · intro h e hmsg hhook herr
    have hres : (handleMessage cfg rst msg).raised = some e := by
      simp [handleMessage, hmsg, runHook1, hhook, herr]
    refine ⟨hres, ?_⟩
    simp [runConsumer, hres]
  · intro h e hmsg htag hres hhook herr
    unfold handleMessage
    cases hv : jsIndex (asArr msg) 0 <;> simp [firstElemIs, hv] at htag
    case vNum t =>
      subst htag
      have hmem : asInt (jsIndex (asArr msg) 1) ∉ rst.reservations := by
        simpa using hres
      simp [hmsg, hv, handleResponseMessage, hmem, runHook2, hhook, herr]

/-- C7 amended witness: a notification whose handling cannot raise, and an
invalid value whose hook failure terminates the consumer. -/
theorem hook_failure_isolation_amended_witness :
    (handleMessage failingInvalidHookConfig ⟨[], true⟩
      (buildNotificationMessage "m" [])).raised = none ∧
    (runConsumer failingInvalidHookConfig ⟨[], true⟩ [vStr "bad"]).2 =
      some (vStr "hookboom") := by
  constructor
  · exact (hook_failure_isolation_amended failingInvalidHookConfig ⟨[], true⟩
      (buildNotificationMessage "m" [])).1 rfl (Or.inr rfl)
  · exact ((hook_failure_isolation_amended failingInvalidHookConfig ⟨[], true⟩
      (vStr "bad")).2.1 _ (vStr "hookboom") rfl rfl rfl).2

/-- A configuration with a handler that fails and a notification
message-error hook that records its invocation. -/
def failingHandlerConfig : Config :=
  { dispatcher := [("m", fun _ => .error (jsNewError "Failed"))],
    onInvalidMessage := none, onRequestMessageError := none,
    onResponseMessageError := none,
    onNotificationMessageError := some (fun _ _ => .ok ()) }

/--
C6 at the failing input: the handler for `"m"` fails, yet handling the
Notification `[2, "m", []]` invokes no hook at all — `#dispatch` catches
the handler failure and returns it as a value, which
`#handleNotificationMessage` discards, so the failure is never reported
via `onNotificationMessageError` (no reply is emitted, as the claim says).
-/
theorem notification_handler_failure_not_reported :
    dispatch failingHandlerConfig.dispatcher "m" [] =
      .error (jsNewError "Failed") ∧
    (handleMessage failingHandlerConfig ⟨[], true⟩
      (buildNotificationMessage "m" [])).hookEvents = [] ∧
    (handleMessage failingHandlerConfig ⟨[], true⟩
      (buildNotificationMessage "m" [])).outbound = [] ∧
    (handleMessage failingHandlerConfig ⟨[], true⟩
      (buildNotificationMessage "m" [])).raised = none :=
  ⟨rfl, rfl, rfl, rfl⟩

end MsgpackRpc
